import Mathlib

set_option autoImplicit false

/- Shallow embedding of the alsoorm source module (alsoorm/main.py).
Pure fragments become Lean functions; the process-global AlsoConfig singleton
becomes explicit state passing over a `World` record; Python exceptions become
`Except` results; Python dicts become insertion-ordered association lists with
unique keys. -/

inductive PyType where
  | pyInt
  | pyStr
  | pyBool
  | pyDatetime
  | pyDate
  deriving DecidableEq

inductive Value where
  | vInt (n : Int)
  | vStr (s : String)
  | vBool (b : Bool)
  | vNone
  deriving DecidableEq

/-- Application of a registered host-type constructor (`int`, `str`, `bool`,
`datetime`, `date`) to a raw driver value. These constructors are Python
standard-library callables external to the repository; the repository only
stores and applies them, so the embedding models the application abstractly.
No claim depends on the content of a conversion. -/
def PyType.apply : PyType → Value → Value
  | PyType.pyInt, Value.vBool b => Value.vInt (if b then 1 else 0)
  | PyType.pyBool, Value.vInt n => Value.vBool (decide (n ≠ 0))
  | _, v => v

/-- Column (main.py lines 40-66): immutable descriptor of one table column,
field for field as in the frozen dataclass. -/
structure Column where
  column_name : String
  pg_type : String
  py_type : PyType
  primary_key : Bool
  nullable : Bool
  ordinal : Nat
  default : String
  deriving DecidableEq

/-- Column.coerce (main.py 65-66): `return self.py_type(value)`. -/
def Column.coerce (c : Column) (v : Value) : Value :=
  PyType.apply c.py_type v

/-- Python dict assignment `d[k] = v` over an insertion-ordered association
list with unique keys: an existing key keeps its position and receives the new
value, a new key is appended at the end. -/
def dictInsert {α : Type} : List (String × α) → String → α → List (String × α)
  | [], k, v => [(k, v)]
  | (k2, v2) :: rest, k, v =>
      if k2 = k then (k, v) :: rest else (k2, v2) :: dictInsert rest k v

/-- Python dict lookup `d[k]` and key membership `k in d`: the first entry
carrying the key. -/
def lookupStr {α : Type} : List (String × α) → String → Option α
  | [], _ => none
  | (k2, v2) :: rest, k => if k2 = k then some v2 else lookupStr rest k

/-- Row (main.py 69-72): a list of columns paired with a positionally parallel
list of raw values. No constructor or operation checks that the lengths agree. -/
structure Row where
  columns : List Column
  values : List Value

/-- Row.asdict (main.py 74-78): a dict comprehension over zip(columns, values).
zip stops at the shorter list; the dict keeps the last value for a repeated
key. -/
def Row.asdict (r : Row) : List (String × Value) :=
  (r.columns.zip r.values).foldl
    (fun d p => dictInsert d p.1.column_name (p.1.coerce p.2)) []

/-- Secondary (main.py 81-86). -/
structure Secondary where
  join : String
  columns : List String
  deriving DecidableEq

/-- default_data_types (main.py 233-243). -/
def default_data_types : List (String × PyType) :=
  [("integer", PyType.pyInt),
   ("bigint", PyType.pyInt),
   ("timestamp with time zone", PyType.pyDatetime),
   ("date", PyType.pyDate),
   ("character varying", PyType.pyStr),
   ("text", PyType.pyStr),
   ("boolean", PyType.pyBool),
   ("tsvector", PyType.pyStr)]

/-- ConfigHolder (main.py 246-250). -/
structure ConfigHolder where
  system_columns : List String
  data_types : List (String × PyType)
  default_schema : String
  deriving DecidableEq

/-- The value `ConfigHolder()` built from the dataclass field defaults. -/
def ConfigHolder.init : ConfigHolder :=
  ⟨[], default_data_types, "public"⟩

/-- Process state for the AlsoConfig singleton (main.py 219-257): `inst` is
`cls.instance` (the allocated object identity, if any), `conf` is the `conf`
attribute of that instance, `next_id` numbers allocations. -/
structure World where
  next_id : Nat
  inst : Option Nat
  conf : ConfigHolder
  deriving DecidableEq

/-- State at module import: the class exists, `cls.instance` is None. -/
def World.init : World := ⟨0, none, ConfigHolder.init⟩

/-- A call `AlsoConfig()` under SingletonMetaClass (main.py 219-230, 253-257):
`my_new` returns the cached instance, allocating one on the first call; Python
then always invokes `AlsoConfig.__init__` on the returned instance, which
rebinds `self.conf = ConfigHolder()`. The result is the object identity of the
returned instance together with the updated process state. -/
def alsoConfigCall (w : World) : Nat × World :=
  match w.inst with
  | some i => (i, { w with conf := ConfigHolder.init })
  | none =>
      (w.next_id,
        { next_id := w.next_id + 1
          inst := some w.next_id
          conf := ConfigHolder.init })

/-- AlsoConfig.mark_system_column (main.py 263-265), invoked on a held
instance: appends to `self.conf.system_columns` without constructing. -/
def markSystemColumn (w : World) (column_name : String) : World :=
  { w with conf :=
      { w.conf with system_columns := w.conf.system_columns ++ [column_name] } }

/-- AlsoConfig.add_type (main.py 271-272), invoked on a held instance:
`self.data_types[pg_type] = py_type`. -/
def addType (w : World) (pg_type : String) (py_type : PyType) : World :=
  { w with conf :=
      { w.conf with data_types := dictInsert w.conf.data_types pg_type py_type } }

/-- Column.system_maintained (main.py 61-63):
`self.column_name in AlsoConfig().system_maintained`. The property constructs
AlsoConfig() — with its reset side effect — and then tests membership in the
system-column list of the returned instance. -/
def Column.system_maintained (w : World) (c : Column) : Bool × World :=
  let p := alsoConfigCall w
  (p.2.conf.system_columns.contains c.column_name, p.2)

/-- Table (main.py 89-96). The source field `schema` holds the owning Schema
object and is used only through `schema.schema_name` (full_name) and
`schema.db` (statement delegation); the embedding keeps the schema name and
models delegation by returning the issued request. -/
structure Table where
  schema : String
  table_name : String
  columns : List Column
  secondaries : List Secondary
  deriving DecidableEq

/-- Table.primary_key (main.py 98-100). -/
def Table.primary_key (t : Table) : List Column :=
  t.columns.filter (fun c => c.primary_key)

/-- Table.full_name (main.py 102-104). -/
def Table.full_name (t : Table) : String :=
  "\"" ++ t.schema ++ "\".\"" ++ t.table_name ++ "\""

/-- Table.pk_name (main.py 106-112): raise NotImplementedError unless exactly
one primary-key column, else that column's name. -/
def Table.pk_name (t : Table) : Except String String :=
  if h : (Table.primary_key t).length = 1 then
    Except.ok ((Table.primary_key t).get ⟨0, by omega⟩).column_name
  else
    Except.error ("Multi column primary keys are not yet supported.")

/-- The list comprehension of Table.insertable (main.py 114-120), threading the
process state: `not column.primary_key and not column.system_maintained` with
Python short-circuit evaluation (a primary-key column does not access the
system_maintained property). -/
def insertableFilter : World → List Column → List Column × World
  | w, [] => ([], w)
  | w, c :: cs =>
      if c.primary_key then insertableFilter w cs
      else
        let p := Column.system_maintained w c
        let q := insertableFilter p.2 cs
        (if p.1 then q.1 else c :: q.1, q.2)

/-- Table.insertable (main.py 114-120). -/
def Table.insertable (w : World) (t : Table) : List Column × World :=
  insertableFilter w t.columns

/-- Python equality between a string attribute name and a Column list element:
a str never equals a Column dataclass instance (each side returns
NotImplemented from its eq method), so the comparison is False for every pair. -/
def pyStrEqColumn (_attr : String) (_c : Column) : Bool := false

/-- Table.getattr (main.py 122-126): `attr in self.columns` is membership of a
string in a list of Column values, hence always False; the then branch
`self.columns[attr]` would index a list with a string (a TypeError) and is
unreachable. Every lookup therefore reaches the AttributeError branch. -/
def Table.getattrCol (t : Table) (attr : String) : Except String Column :=
  if t.columns.any (fun c => pyStrEqColumn attr c) then
    Except.error ("TypeError: list indices must be integers or slices, not str")
  else
    Except.error ("No attribute " ++ attr)

/-- Schema (main.py 139-143). The non-owning `db` back reference is used only
to delegate statement execution and is modelled at the call sites. -/
structure Schema where
  schema_name : String
  tables : List (String × Table)
  deriving DecidableEq

/-- Schema.getattr (main.py 145-149): dict key membership, then dict lookup,
else AttributeError. -/
def Schema.getattrTable (sc : Schema) (attr : String) : Except String Table :=
  match lookupStr sc.tables attr with
  | some t => Except.ok t
  | none => Except.error ("No attribute " ++ attr)

/-- str.join with a comma separator. -/
def joinComma : List String → String
  | [] => ""
  | [s] => s
  | s :: rest => s ++ "," ++ joinComma rest

/-- The positional placeholder list of Table.insert (main.py 132). -/
def placeholderList (n : Nat) : List String :=
  (List.range n).map (fun i => "$" ++ toString (i + 1))

/-- The INSERT text built by Table.insert (main.py 131-133), whitespace
normalized. Note the source interpolates `self.table_name`, not full_name. -/
def Table.insertSql (t : Table) (ins : List Column) : String :=
  "INSERT INTO " ++ t.table_name ++ " (" ++ joinComma (ins.map Column.column_name)
    ++ ") VALUES (" ++ joinComma (placeholderList ins.length) ++ ") RETURNING *"

/-- The argument list of Table.insert (main.py 134):
`[self.get_values(i.column_name, data) for i in insertable]`. The Table class
defines no attribute get_values, so evaluating the first element resolves
`self.get_values` through Table.getattr, which raises; with an empty
insertable list the comprehension performs no lookup. The ok branch after a
successful lookup is unreachable (and a Column would not be callable). -/
def Table.insertArgs (t : Table) (_data : List (String × Value)) :
    List Column → Except String (List Value)
  | [] => Except.ok []
  | _ :: _ =>
      match Table.getattrCol t ("get_values") with
      | Except.error e => Except.error e
      | Except.ok _ => Except.error ("TypeError: Column object is not callable")

/-- Table.insert (main.py 128-136): computes insertable (threading the config
state), builds the statement and the argument list, and on success returns the
(sql, args) request passed to self.schema.db.fetchrow. -/
def Table.insert (w : World) (t : Table) (data : List (String × Value)) :
    Except String (String × List Value) :=
  let p := Table.insertable w t
  match Table.insertArgs t data p.1 with
  | Except.error e => Except.error e
  | Except.ok args => Except.ok (Table.insertSql t p.1, args)

/-- One column descriptor of the aggregated catalog row (the JSON object shape
built by schema_query, main.py 14-37). -/
structure ColDescriptor where
  column_name : String
  pg_type : String
  primary_key : Bool
  default : String
  nullable : Bool
  ordinal : Nat
  deriving DecidableEq

/-- One row of the catalog query result: a table name with its aggregated
column descriptors, in delivery order. -/
structure CatalogRow where
  table_name : String
  columns : List ColDescriptor
  deriving DecidableEq

/-- The KeyError raised by `self.config.data_types[col["pg_type"]]`
(main.py 193) when the native type has no registry entry; this is the
spec-level UnknownTypeError. -/
inductive ReflectError where
  | unknownType (pg_type : String)
  deriving DecidableEq

/-- The per-table column loop of DB.reflect_schema (main.py 192-194):
`col["py_type"] = self.config.data_types[col["pg_type"]]` then Column(**col),
appending in delivery order; the first missing native type raises. -/
def buildColumns (data_types : List (String × PyType)) :
    List ColDescriptor → Except ReflectError (List Column)
  | [] => Except.ok []
  | d :: ds =>
      match lookupStr data_types d.pg_type with
      | none => Except.error (ReflectError.unknownType d.pg_type)
      | some py =>
          match buildColumns data_types ds with
          | Except.error e => Except.error e
          | Except.ok rest =>
              Except.ok
                (Column.mk d.column_name d.pg_type py d.primary_key d.nullable
                  d.ordinal d.default :: rest)

/-- The outer loop of DB.reflect_schema (main.py 189-195): one Table per
catalog row, stored under its name in the schema table dict. -/
def reflectTables (data_types : List (String × PyType)) (schema_name : String) :
    List CatalogRow → List (String × Table) → Except ReflectError (List (String × Table))
  | [], tables => Except.ok tables
  | row :: rest, tables =>
      match buildColumns data_types row.columns with
      | Except.error e => Except.error e
      | Except.ok cols =>
          reflectTables data_types schema_name rest
            (dictInsert tables row.table_name
              (Table.mk schema_name row.table_name cols []))

/-- DB.reflect_schema (main.py 183-197), parameterized by the catalog query
result for the schema name and by the type mapping read through
`self.config.data_types`. Every such read constructs AlsoConfig(), so by
configCall_resets_conf it always yields ConfigHolder.init.data_types; the
mapping is therefore constant over the loop and is passed as data_types. -/
def DB.reflect_schema (data_types : List (String × PyType)) (schema_name : String)
    (result : List CatalogRow) : Except ReflectError Schema :=
  match reflectTables data_types schema_name result [] with
  | Except.error e => Except.error e
  | Except.ok tables => Except.ok (Schema.mk schema_name tables)

/-- DB (main.py 158-162): the fields a reflected Schema does not own. The pool
is an opaque identity. -/
structure DBState where
  db_url : String
  schemas : List (String × Schema)
  connection_pool : Option Nat
  deriving DecidableEq

/-- DB.get_schema (main.py 178-181): on a cache miss, reflect and store; when
reflect_schema raises, the exception propagates and the assignment to
self.schemas never runs. The returned schema equals the just-stored entry
(lookupStr_dictInsert_eq). -/
def DB.get_schema (data_types : List (String × PyType))
    (catalog : String → List CatalogRow) (s : DBState) (schema_name : String) :
    Except ReflectError Schema × DBState :=
  match lookupStr s.schemas schema_name with
  | some sch => (Except.ok sch, s)
  | none =>
      match DB.reflect_schema data_types schema_name (catalog schema_name) with
      | Except.error e => (Except.error e, s)
      | Except.ok sch =>
          (Except.ok sch, { s with schemas := dictInsert s.schemas schema_name sch })

/-- DB.connect (main.py 171-176): creates a pool only when none exists.
new_pool stands for the pool asyncpg.create_pool would hand back; the tenacity
retry wrapper re-invokes the body only on driver failure and does not alter
the already-connected case. -/
def DB.connect (s : DBState) (new_pool : Nat) : DBState :=
  match s.connection_pool with
  | some _ => s
  | none => { s with connection_pool := some new_pool }

/-- DB.config (main.py 164-166): `return AlsoConfig()` — a construction, with
its reset side effect. -/
def DB.config (w : World) : Nat × World :=
  alsoConfigCall w

/-- Boolean rendering of the ordering property: every consecutive pair of the
list is strictly increasing. -/
def ordinalsAscending : List Nat → Bool
  | [] => true
  | [_] => true
  | a :: b :: rest => decide (a < b) && ordinalsAscending (b :: rest)

/- Concrete fixtures used by closed theorems and witnesses. -/

def idCol : Column := ⟨"id", "integer", PyType.pyInt, true, false, 1, ""⟩

def nameCol : Column := ⟨"name", "text", PyType.pyStr, false, false, 2, ""⟩

def createdOnCol : Column :=
  ⟨"created_on", "timestamp with time zone", PyType.pyDatetime, false, true, 3, "now()"⟩

def usersTable : Table := ⟨"public", "users", [idCol, nameCol, createdOnCol], []⟩

def usersSchema : Schema := ⟨"public", [("users", usersTable)]⟩

def usersCatalogRow : CatalogRow :=
  ⟨"users",
    [⟨"id", "integer", true, "", false, 1⟩,
     ⟨"name", "text", false, "", false, 2⟩,
     ⟨"created_on", "timestamp with time zone", false, "now()", true, 3⟩]⟩

def outOfOrderRow : CatalogRow :=
  ⟨"events", [⟨"b", "integer", false, "", true, 2⟩, ⟨"a", "integer", false, "", true, 1⟩]⟩

def eventsOutTable : Table :=
  ⟨"public", "events",
    [⟨"b", "integer", PyType.pyInt, false, true, 2, ""⟩,
     ⟨"a", "integer", PyType.pyInt, false, true, 1, ""⟩], []⟩

def badTypeRow : CatalogRow :=
  ⟨"gadgets", [⟨"gid", "uuid", true, "", false, 1⟩]⟩

/-- A process state in which the user has constructed the config once and
marked created_on as system maintained. -/
def markedWorld : World :=
  markSystemColumn (alsoConfigCall World.init).2 ("created_on")

/- Helper lemmas shared across the development. -/

/-- Every AlsoConfig() construction rebinds the conf attribute to a fresh
default ConfigHolder. -/
theorem configCall_resets_conf (w : World) :
    (alsoConfigCall w).2.conf = ConfigHolder.init := by
  cases hw : w.inst <;> simp [alsoConfigCall, hw]

/-- Looking up the key just assigned yields the assigned value. -/
theorem lookupStr_dictInsert_eq {α : Type} (d : List (String × α)) (k : String) (v : α) :
    lookupStr (dictInsert d k v) k = some v := by
  induction d with
  | nil => simp [dictInsert, lookupStr]
  | cons p rest ih =>
      obtain ⟨k2, v2⟩ := p
      by_cases h : k2 = k
      · subst h; simp [dictInsert, lookupStr]
      · simp [dictInsert, lookupStr, h, ih]

/-- Assignment under one key leaves lookups of other keys unchanged. -/
theorem lookupStr_dictInsert_ne {α : Type} (d : List (String × α)) (k k2 : String) (v : α)
    (h : k ≠ k2) : lookupStr (dictInsert d k v) k2 = lookupStr d k2 := by
  induction d with
  | nil => simp [dictInsert, lookupStr, h]
  | cons p rest ih =>
      obtain ⟨k3, v3⟩ := p
      by_cases h3 : k3 = k
      · subst h3; simp [dictInsert, lookupStr, h]
      · simp [dictInsert, lookupStr, h3, ih]

/-- A descriptor whose native type misses the mapping makes the column loop
fail with a KeyError on some native type. -/
theorem buildColumns_error_of_missing (data_types : List (String × PyType))
    (descs : List ColDescriptor) (d : ColDescriptor) (hd : d ∈ descs)
    (hty : lookupStr data_types d.pg_type = none) :
    ∃ ty, buildColumns data_types descs = Except.error (ReflectError.unknownType ty) := by
  induction descs with
  | nil => cases hd
  | cons e rest ih =>
      cases hlk : lookupStr data_types e.pg_type with
      | none => exact ⟨e.pg_type, by simp [buildColumns, hlk]⟩
      | some py =>
          have hd2 : d ∈ rest := by
            rcases List.mem_cons.mp hd with h1 | h1
            · rw [h1] at hty; rw [hty] at hlk; cases hlk
            · exact h1
          obtain ⟨ty, hrec⟩ := ih hd2
          exact ⟨ty, by simp [buildColumns, hlk, hrec]⟩

/-- A missing native type anywhere in the catalog result makes the whole
table loop fail. -/
theorem reflectTables_error_of_missing (data_types : List (String × PyType))
    (schema_name : String) (row : CatalogRow) (d : ColDescriptor)
    (hd : d ∈ row.columns) (hty : lookupStr data_types d.pg_type = none) :
    ∀ (result : List CatalogRow) (acc : List (String × Table)), row ∈ result →
      ∃ ty, reflectTables data_types schema_name result acc =
        Except.error (ReflectError.unknownType ty) := by
  intro result
  induction result with
  | nil => intro acc hrow; cases hrow
  | cons r rest ih =>
      intro acc hrow
      cases hb : buildColumns data_types r.columns with
      | error e =>
          cases e with
          | unknownType ty => exact ⟨ty, by simp [reflectTables, hb]⟩
      | ok cols =>
          have hrow2 : row ∈ rest := by
            rcases List.mem_cons.mp hrow with h1 | h1
            · exfalso
              obtain ⟨ty, hb2⟩ :=
                buildColumns_error_of_missing data_types r.columns d (h1 ▸ hd) hty
              rw [hb] at hb2; cases hb2
            · exact h1
          obtain ⟨ty, hrec⟩ :=
            ih (dictInsert acc r.table_name (Table.mk schema_name r.table_name cols [])) hrow2
          exact ⟨ty, by simp [reflectTables, hb, hrec]⟩

/-- Columns built from a successful loop carry exactly the delivered ordinals,
in delivery order. -/
theorem buildColumns_ok_ordinals (data_types : List (String × PyType)) :
    ∀ (descs : List ColDescriptor) (cols : List Column),
      buildColumns data_types descs = Except.ok cols →
      cols.map Column.ordinal = descs.map ColDescriptor.ordinal := by
  intro descs
  induction descs with
  | nil =>
      intro cols h
      simp [buildColumns] at h
      subst h; simp
  | cons e rest ih =>
      intro cols h
      cases hlk : lookupStr data_types e.pg_type with
      | none => simp [buildColumns, hlk] at h
      | some py =>
          cases hb : buildColumns data_types rest with
          | error e2 => simp [buildColumns, hlk, hb] at h
          | ok rest2 =>
              simp [buildColumns, hlk, hb] at h
              subst h
              simp [ih rest2 hb]

/-- Every table stored by the reflection loop either was already in the
accumulator or was built from one of the delivered catalog rows. -/
theorem reflectTables_ok_lookup (data_types : List (String × PyType)) (schema_name : String)
    (tname : String) (t : Table) :
    ∀ (result : List CatalogRow) (acc tables : List (String × Table)),
      reflectTables data_types schema_name result acc = Except.ok tables →
      lookupStr tables tname = some t →
      lookupStr acc tname = some t ∨
        ∃ row, row ∈ result ∧ ∃ cols,
          buildColumns data_types row.columns = Except.ok cols ∧
          t = Table.mk schema_name row.table_name cols [] := by
  intro result
  induction result with
  | nil =>
      intro acc tables h hl
      simp [reflectTables] at h
      subst h
      left; exact hl
  | cons r rest ih =>
      intro acc tables h hl
      cases hb : buildColumns data_types r.columns with
      | error e => simp [reflectTables, hb] at h
      | ok cols =>
          simp only [reflectTables, hb] at h
          rcases ih _ _ h hl with hacc | ⟨row, hrow, cols2, hb2, ht⟩
          · by_cases hn : r.table_name = tname
            · subst hn
              rw [lookupStr_dictInsert_eq] at hacc
              right
              refine ⟨r, List.mem_cons_self r rest, cols, hb, ?_⟩
              injection hacc with h2
              exact h2.symm
            · rw [lookupStr_dictInsert_ne _ _ _ _ hn] at hacc
              left; exact hacc
          · right
            exact ⟨row, List.mem_cons_of_mem r hrow, cols2, hb2, ht⟩

/- Claim theorems. -/

/-- C1: Table.insert cannot perform the documented build-execute-return cycle:
for a table with a nonempty insertable list, evaluating the argument list
resolves the undefined attribute get_values through Table.getattr and raises
AttributeError before any statement is executed. Evaluated here at a users
table and data supplying its insertable column names. -/
theorem insert_fails_no_get_values :
    Table.insert World.init usersTable [(("name" : String), Value.vStr ("Ada"))] =
      Except.error ("No attribute get_values") := by
  rfl

/-- C3: pk_name raises for zero or several primary-key columns and returns the
single primary-key column name otherwise: it equals the case split on
Table.primary_key that returns the column name exactly in the singleton case
and the NotImplementedError (the spec-level UnsupportedSchemaError) otherwise. -/
theorem pk_name_single_pk_cases (t : Table) :
    Table.pk_name t =
      (match Table.primary_key t with
        | [c] => Except.ok c.column_name
        | _ => Except.error ("Multi column primary keys are not yet supported.")) := by
  cases h : Table.primary_key t with
  | nil => simp [Table.pk_name, h]
  | cons c rest =>
      cases rest with
      | nil => simp [Table.pk_name, h]
      | cons c2 rest2 => simp [Table.pk_name, h]

/-- C5: the insertable list never contains primary-key columns, but it does
not exclude marked system-maintained columns: in the state where created_on
has been marked, the insertable list of the users table still contains the
non-primary-key column created_on, whose name is in the system-column set of
that state — each system_maintained access resets the singleton configuration
before reading it. -/
theorem insertable_misses_marked_system_column :
    (Table.insertable markedWorld usersTable).1 = [nameCol, createdOnCol] ∧
    createdOnCol.column_name ∈ markedWorld.conf.system_columns ∧
    createdOnCol.primary_key = false := by
  exact ⟨rfl, by decide, rfl⟩

/-- C6: after mark_system_column has put created_on into the system-column
set, the system_maintained property of a column named created_on still
computes false, because the AlsoConfig() construction inside the property
reinitializes the singleton configuration before the membership test. -/
theorem system_maintained_false_after_marking :
    createdOnCol.column_name ∈ markedWorld.conf.system_columns ∧
    (Column.system_maintained markedWorld createdOnCol).1 = false := by
  exact ⟨by decide, rfl⟩

/-- C7: constructions of AlsoConfig return the same object identity, but a
type registered through add_type is not visible after the next DB.config
access: that access constructs AlsoConfig(), whose init rebinds conf to the
defaults, dropping the uuid registration. -/
theorem singleton_identity_but_config_reset :
    (alsoConfigCall World.init).1 = (alsoConfigCall (alsoConfigCall World.init).2).1 ∧
    lookupStr (addType (alsoConfigCall World.init).2 ("uuid") PyType.pyStr).conf.data_types
        ("uuid") = some PyType.pyStr ∧
    lookupStr (DB.config (addType (alsoConfigCall World.init).2 ("uuid") PyType.pyStr)).2.conf.data_types
        ("uuid") = none := by
  exact ⟨rfl, rfl, rfl⟩

/-- C8: connect on a Database whose pool is already established is a no-op
that leaves the state, pool included, unchanged. -/
theorem connect_idempotent (s : DBState) (p new_pool : Nat)
    (h : s.connection_pool = some p) : DB.connect s new_pool = s := by
  simp [DB.connect, h]

/-- Witness for connect_idempotent at a concrete connected state. -/
theorem connect_idempotent_witness :
    (DBState.mk ("postgres:") [] (some 7)).connection_pool = some 7 ∧
    DB.connect (DBState.mk ("postgres:") [] (some 7)) 8 = DBState.mk ("postgres:") [] (some 7) :=
  ⟨rfl, connect_idempotent (DBState.mk ("postgres:") [] (some 7)) 7 8 rfl⟩

/-- C9: Schema attribute lookup resolves a reflected table by name and fails
with AttributeError on an unknown name, but Table attribute lookup raises
AttributeError even for the name of an existing column: the membership test
compares the string against Column values and is always false. -/
theorem table_getattr_always_fails :
    Schema.getattrTable usersSchema ("users") = Except.ok usersTable ∧
    Schema.getattrTable usersSchema ("missing") = Except.error ("No attribute missing") ∧
    (usersTable.columns.map Column.column_name).contains ("name") = true ∧
    Table.getattrCol usersTable ("name") = Except.error ("No attribute name") := by
  exact ⟨rfl, rfl, rfl, rfl⟩

/-- C2: a catalog result containing a column whose native type is absent from
the consulted registry mapping makes reflect_schema fail with the KeyError
(spec-level UnknownTypeError), and get_schema on a cache miss returns that
failure with the schema cache unchanged, so a later get_schema for the same
name reflects again. -/
theorem get_schema_unknown_type_uncached (data_types : List (String × PyType))
    (catalog : String → List CatalogRow) (s : DBState) (schema_name : String)
    (row : CatalogRow) (d : ColDescriptor)
    (hnc : lookupStr s.schemas schema_name = none)
    (hrow : row ∈ catalog schema_name) (hd : d ∈ row.columns)
    (hty : lookupStr data_types d.pg_type = none) :
    (∃ ty, DB.reflect_schema data_types schema_name (catalog schema_name) =
        Except.error (ReflectError.unknownType ty)) ∧
    (∃ ty, (DB.get_schema data_types catalog s schema_name).1 =
        Except.error (ReflectError.unknownType ty)) ∧
    (DB.get_schema data_types catalog s schema_name).2 = s := by
  obtain ⟨ty, hrt⟩ :=
    reflectTables_error_of_missing data_types schema_name row d hd hty
      (catalog schema_name) [] hrow
  have hre : DB.reflect_schema data_types schema_name (catalog schema_name) =
      Except.error (ReflectError.unknownType ty) := by
    simp [DB.reflect_schema, hrt]
  refine ⟨⟨ty, hre⟩, ⟨ty, ?_⟩, ?_⟩ <;> simp [DB.get_schema, hnc, hre]

/-- Witness for get_schema_unknown_type_uncached: an uncached schema whose
catalog result delivers a uuid column, reflected against the default mapping. -/
theorem get_schema_unknown_type_uncached_witness :
    (∃ ty, DB.reflect_schema default_data_types ("public") [badTypeRow] =
        Except.error (ReflectError.unknownType ty)) ∧
    (∃ ty, (DB.get_schema default_data_types (fun _ => [badTypeRow])
        (DBState.mk ("postgres:") [] none) ("public")).1 =
        Except.error (ReflectError.unknownType ty)) ∧
    (DB.get_schema default_data_types (fun _ => [badTypeRow])
        (DBState.mk ("postgres:") [] none) ("public")).2 =
      DBState.mk ("postgres:") [] none :=
  get_schema_unknown_type_uncached default_data_types (fun _ => [badTypeRow])
    (DBState.mk ("postgres:") [] none) ("public") badTypeRow
    ⟨"gid", "uuid", true, "", false, 1⟩ (by rfl) (by decide) (by decide) (by rfl)

/-- C4 counterexample: reflection preserves catalog delivery order rather than
sorting by ordinal — a catalog row delivering ordinals 2, 1 reflects to a
table whose column list is not in increasing ordinal order. -/
theorem reflect_delivery_order_cex :
    DB.reflect_schema default_data_types ("public") [outOfOrderRow] =
      Except.ok (Schema.mk ("public") [(("events" : String), eventsOutTable)]) ∧
    lookupStr (Schema.mk ("public") [(("events" : String), eventsOutTable)]).tables
        ("events") = some eventsOutTable ∧
    ordinalsAscending (eventsOutTable.columns.map Column.ordinal) = false := by
  exact ⟨rfl, rfl, rfl⟩

/-- C4 (amended): for every table produced by reflection, the column list is in
the order delivered by the catalog query; whenever the catalog delivers every
per-table descriptor list in strictly increasing ordinal order, each reflected
table's columns are in strictly increasing ordinal order. -/
theorem reflect_sorted_catalog_sorted_columns (data_types : List (String × PyType))
    (schema_name : String) (result : List CatalogRow) (sch : Schema)
    (tname : String) (t : Table)
    (href : DB.reflect_schema data_types schema_name result = Except.ok sch)
    (ht : lookupStr sch.tables tname = some t)
    (hsorted : ∀ row ∈ result,
      ordinalsAscending (row.columns.map ColDescriptor.ordinal) = true) :
    ordinalsAscending (t.columns.map Column.ordinal) = true := by
  cases hrt : reflectTables data_types schema_name result [] with
  | error e => simp [DB.reflect_schema, hrt] at href
  | ok tables =>
      simp only [DB.reflect_schema, hrt] at href
      injection href with h2
      subst h2
      rcases reflectTables_ok_lookup data_types schema_name tname t result [] tables
          hrt ht with hacc | ⟨row, hrow, cols, hb, hteq⟩
      · simp [lookupStr] at hacc
      · subst hteq
        show ordinalsAscending (cols.map Column.ordinal) = true
        rw [buildColumns_ok_ordinals data_types row.columns cols hb]
        exact hsorted row hrow

/-- Witness for reflect_sorted_catalog_sorted_columns at a users catalog row
delivered in increasing ordinal order. -/
theorem reflect_sorted_catalog_sorted_columns_witness :
    ordinalsAscending (usersTable.columns.map Column.ordinal) = true :=
  reflect_sorted_catalog_sorted_columns default_data_types ("public") [usersCatalogRow]
    usersSchema ("users") usersTable (by rfl) (by rfl) (by decide)

/-- Unfolding of asdict on an explicit Row. -/
theorem asdict_mk (cols : List Column) (vals : List Value) :
    (Row.mk cols vals).asdict =
      (cols.zip vals).foldl
        (fun d p => dictInsert d p.1.column_name (p.1.coerce p.2)) [] := rfl

/-- zip only reads the common prefix of its two arguments. -/
theorem zip_eq_zip_take_min {α β : Type} (l1 : List α) (l2 : List β) :
    l1.zip l2 =
      (l1.take (min l1.length l2.length)).zip (l2.take (min l1.length l2.length)) := by
  induction l1 generalizing l2 with
  | nil => simp
  | cons a t1 ih =>
      cases l2 with
      | nil => simp
      | cons b t2 =>
          simp only [List.length_cons, Nat.succ_min_succ, List.take_succ_cons,
            List.zip_cons_cons]
          rw [← ih t2]

/-- dict assignment grows the dict by at most one entry. -/
theorem dictInsert_length_le {α : Type} (d : List (String × α)) (k : String) (v : α) :
    (dictInsert d k v).length ≤ d.length + 1 := by
  induction d with
  | nil => simp [dictInsert]
  | cons p rest ih =>
      obtain ⟨k2, v2⟩ := p
      by_cases h : k2 = k
      · simp [dictInsert, h]
      · simp only [dictInsert, h, if_false, List.length_cons]
        omega

/-- Folding dict assignments over a pair list grows the dict by at most the
number of pairs. -/
theorem foldl_dictInsert_length_le (pairs : List (Column × Value)) :
    ∀ d : List (String × Value),
      (pairs.foldl (fun d p => dictInsert d p.1.column_name (p.1.coerce p.2)) d).length ≤
        d.length + pairs.length := by
  induction pairs with
  | nil => intro d; simp
  | cons p rest ih =>
      intro d
      have h1 := ih (dictInsert d p.1.column_name (p.1.coerce p.2))
      have h2 := dictInsert_length_le d p.1.column_name (p.1.coerce p.2)
      simp only [List.foldl_cons, List.length_cons]
      omega

/-- C10: asdict is total on rows with mismatched lengths and depends only on
the common prefix of the two lists — the excess columns or values are silently
dropped — and its size never exceeds the shorter length. -/
theorem asdict_zip_truncation (cols : List Column) (vals : List Value) :
    (Row.mk cols vals).asdict =
      (Row.mk (cols.take (min cols.length vals.length))
        (vals.take (min cols.length vals.length))).asdict ∧
    (Row.mk cols vals).asdict.length ≤ min cols.length vals.length := by
  constructor
  · rw [asdict_mk, asdict_mk, ← zip_eq_zip_take_min]
  · rw [asdict_mk]
    have h1 := foldl_dictInsert_length_le (cols.zip vals) []
    have h2 : (cols.zip vals).length = min cols.length vals.length :=
      List.length_zip cols vals
    simp only [List.length_nil] at h1
    omega
